import Mathlib

/-!
# Verification of the CASJobs client core (`src/casjobs/casjobsclient.py`)

Shallow embedding of the local logic of `CASJobsClient`: the filter-string
compilation of `get_jobs` (lines 209-220), the jobs/queues response handling
(lines 232-235 and 98-105), the status lookup `get_job_status` (lines 266-282)
with the `jobstatus` table (lines 55-60), and `cancel_job` (lines 300-315).

Remote SOAP exchanges are external: each embedded operation takes the raw
values the remote would return (or reports the request it would issue) and the
theorems are about the local computation around them.
-/

namespace CasJobs

/-- A Python value as it may be passed for one of the optional search
arguments of `get_jobs` (the source defaults every argument to `""`, but
Python callers may pass ints or bools; `get_jobs` only applies truthiness
and `str()` to them). -/
inductive PyVal where
  | str : String → PyVal
  | int : Int → PyVal
  | bool : Bool → PyVal
deriving Repr, DecidableEq

/-- Python truthiness (`if kargs[arg]:`, line 217): a string is truthy iff
non-empty, an int iff nonzero, a bool iff `True`. -/
def PyVal.truthy : PyVal → Bool
  | .str s => s != ""
  | .int n => n != 0
  | .bool b => b

/-- Python `str()` (line 218): strings unchanged, ints in decimal with a
leading `-` when negative, bools as `True`/`False`. -/
def PyVal.pyStr : PyVal → String
  | .str s => s
  | .int n => toString n
  | .bool b => if b then "True" else "False"

/-- The twelve optional search arguments of `get_jobs` (line 107-109), in
declaration order, each defaulting to `""` as in the source.  `includesys`
is kept apart because the source pops it from the criteria dict (line 211). -/
structure GetJobsArgs where
  jobid : PyVal := .str ""
  timesubmit : PyVal := .str ""
  timestart : PyVal := .str ""
  timeend : PyVal := .str ""
  status : PyVal := .str ""
  queue : PyVal := .str ""
  taskname : PyVal := .str ""
  error : PyVal := .str ""
  query : PyVal := .str ""
  context : PyVal := .str ""
  type : PyVal := .str ""
  wsid : PyVal := .str ""
deriving Repr, DecidableEq

/-- `kargs[arg]` (lines 217-218): value of the named search argument.  The
dict `kargs` holds exactly the twelve argument names, so only those keys are
ever looked up; the catch-all case is unreachable. -/
def GetJobsArgs.karg (a : GetJobsArgs) : String → PyVal
  | "jobid" => a.jobid
  | "timesubmit" => a.timesubmit
  | "timestart" => a.timestart
  | "timeend" => a.timeend
  | "status" => a.status
  | "queue" => a.queue
  | "taskname" => a.taskname
  | "error" => a.error
  | "query" => a.query
  | "context" => a.context
  | "type" => a.type
  | "wsid" => a.wsid
  | _ => .str ""

/-- The order in which `for arg in kargs:` (line 216) yields the search
fields.  `kargs` is the CPython 2 dict `locals().copy()` after popping
`includesys` and `self` (lines 209-212); a CPython 2 dict yields its keys in
hash-table slot order.  With the standard CPython 2 string hash
(`x = ord(s[0]) << 7; for c in s: x = (1000003*x) ^ ord(c); x ^= len(s)`,
default non-randomized build) the fourteen locals resize the table to 32
slots, `dict.copy()` re-inserts them in slot order, and the surviving twelve
keys sit at slots
status 0, wsid 1, timestart 3, timeend 13, jobid 15, queue 16,
timesubmit 17, context 22, error 23, query 25, taskname 26, type 28
(`timestart` was displaced from its home slot 16 by `queue` during the copy).
The low 32 bits of the 64-bit hash equal the 32-bit hash, so 32- and 64-bit
builds agree on this order. -/
def kargsOrder : List String :=
  ["status", "wsid", "timestart", "timeend", "jobid", "queue",
   "timesubmit", "context", "error", "query", "taskname", "type"]

/-- Lines 214-218: `search = []`, then for each field in dict order, if its
value is truthy append `":".join((arg, str(kargs[arg])))`. -/
def get_jobs_search (a : GetJobsArgs) : List String :=
  kargsOrder.filterMap fun arg =>
    if (a.karg arg).truthy then some (arg ++ ":" ++ (a.karg arg).pyStr)
    else none

/-- Line 220: `payload = ";".join(search)`. -/
def get_jobs_payload (a : GetJobsArgs) : String :=
  String.intercalate ";" (get_jobs_search a)

/-- The remote `GetJobs` call that `get_jobs` issues (lines 222-226): the
compiled condition string plus the `includeSystem` flag.  The source reaches
this call unconditionally — there is no validation branch between compiling
the payload and issuing the request. -/
structure RemoteListCall where
  conditions : String
  includeSystem : Bool
deriving Repr, DecidableEq

/-- Lines 209-226 of `get_jobs` up to the remote exchange: compile the
payload from the criteria and issue `GetJobs` with it. -/
def get_jobs_request (a : GetJobsArgs) (includesys : Bool) : RemoteListCall :=
  { conditions := get_jobs_payload a, includeSystem := includesys }

/-- Reserved delimiter characters of the filter grammar, per the `get_jobs`
docstring (line 171: values "may not contain any special characters
(:;,|)"). -/
def hasReservedDelim (s : String) : Bool :=
  s.data.any fun c => c == ':' || c == ';' || c == ',' || c == '|'

/-- A raw response value as unmarshaled from the SOAP layer: a string, an
integer, a record (Python dict) of named fields, or a sequence (Python
list). -/
inductive Raw where
  | str : String → Raw
  | int : Int → Raw
  | record : List (String × Raw) → Raw
  | seq : List Raw → Raw
deriving Repr

/-- First value bound to a key in an association list (Python dict lookup on
the raw record fields). -/
def assocFind : List (String × Raw) → String → Option Raw
  | [], _ => none
  | (k, v) :: rest, key => if k = key then some v else assocFind rest key

/-- `r[key]` on a raw record; `none` models the Python `KeyError` (or
`TypeError` when `r` is not a dict). -/
def Raw.find : Raw → String → Option Raw
  | .record fields, key => assocFind fields key
  | _, _ => none

/-- Lines 232-235 of `get_jobs`: `if 'CJJob' in jobres['GetJobsResult'].keys():
return jobres['GetJobsResult']['CJJob']` — the value under `CJJob` is
returned verbatim, whatever its shape — `else: return []`.  `none` models
the `KeyError`/`AttributeError` raised when `GetJobsResult` is absent or not
a record. -/
def getJobsNormalize (jobres : Raw) : Option Raw :=
  match jobres.find "GetJobsResult" with
  | some (Raw.record fields) =>
    match assocFind fields "CJJob" with
    | some v => some v
    | none => some (Raw.seq [])
  | _ => none

/-- One entry of the list built by `_get_queues` (line 101):
`{'db': q['Context'], 'timeout': q['Timeout']}`. -/
structure QueueEntry where
  db : Raw
  timeout : Raw

/-- Line 101 for one raw queue record; `none` models the `KeyError` when a
field is missing (or the `TypeError` when `q` is not a record). -/
def queueOfRaw (q : Raw) : Option QueueEntry := do
  let c ← q.find "Context"
  let t ← q.find "Timeout"
  return ⟨c, t⟩

/-- Lines 98-105 of `_get_queues`: if `CJQueue` is present under
`GetQueuesResult`, map each of its records to a `{'db', 'timeout'}` entry,
else return `[]`.  `none` models the errors Python raises when
`GetQueuesResult` is absent/not a record, when `CJQueue` is not a sequence
(iterating a dict yields key strings, which the `q['Context']` subscript
then rejects), or when an element lacks a field. -/
def getQueuesNormalize (qs : Raw) : Option (List QueueEntry) :=
  match qs.find "GetQueuesResult" with
  | some (Raw.record fields) =>
    match assocFind fields "CJQueue" with
    | some (Raw.seq l) => l.mapM queueOfRaw
    | some _ => none
    | none => some []
  | _ => none

/-- The `self.jobstatus` dict (lines 55-60); `none` models the `KeyError` a
lookup outside `0..5` raises. -/
def jobstatus (k : Int) : Option String :=
  if k = 0 then some "ready"
  else if k = 1 then some "started"
  else if k = 2 then some "canceling"
  else if k = 3 then some "cancelled"
  else if k = 4 then some "failed"
  else if k = 5 then some "finished"
  else none

/-- A raw job record as used by the embedded operations: of its fields only
`Status` (read by `cancel_job`, line 302) matters here. -/
structure JobRec where
  Status : Int
deriving Repr, DecidableEq

/-- What `get_job_status` returns (lines 277-282): the label
`self.jobstatus[status_key]`, the raw integer `status_key` when `code` is
true, the `"No jobs found..."` string, or the `KeyError` from an unmapped
status key. -/
inductive StatusResult where
  | label : String → StatusResult
  | codeVal : Int → StatusResult
  | notFound : String → StatusResult
  | keyError : StatusResult
deriving Repr, DecidableEq

/-- Outcome of `get_job_status` together with whether the remote
`GetJobStatus` call was issued. -/
structure StatusTrace where
  remoteCalled : Bool
  result : StatusResult
deriving Repr, DecidableEq

/-- Lines 266-282 of `get_job_status`: `lookup` is the job list returned by
`self.get_jobs(jobid = jobid)` and `status_key` the integer the remote
`GetJobStatus` would return.  Only when the lookup yields exactly one job is
the remote status call made; otherwise the `"No jobs found..."` string is
returned with no remote call. -/
def get_job_status (jobid : Int) (code : Bool) (lookup : List JobRec)
    (status_key : Int) : StatusTrace :=
  if lookup.length = 1 then
    if code = false then
      match jobstatus status_key with
      | some lbl => ⟨true, .label lbl⟩
      | none => ⟨true, .keyError⟩
    else ⟨true, .codeVal status_key⟩
  else ⟨false, .notFound ("No jobs found for jobid " ++ toString jobid)⟩

/-- The criteria `get_job_status` (line 266) and `cancel_job` (line 300)
pass to `get_jobs`: only `jobid` is supplied. -/
def jobidLookupArgs (jobid : Int) : GetJobsArgs :=
  { jobid := PyVal.int jobid }

/-- What `cancel_job` does (lines 300-315): issue the remote `CancelJob`,
or warn without any remote call, or raise `KeyError` (the warning at line
310 indexes `self.jobstatus` with the record's status). -/
inductive CancelOutcome where
  | remoteCancel
  | warnNotCancel : String → CancelOutcome
  | warnNoJob : String → CancelOutcome
  | keyError : CancelOutcome
deriving Repr, DecidableEq

/-- Lines 300-315 of `cancel_job`: `job` is the list returned by
`self.get_jobs(jobid = jobid)`.  With exactly one match, cancel remotely
when `job[0]['Status'] < 2`, else warn with the status label; with zero or
several matches, warn that no job exists. -/
def cancel_job (jobid : Int) (job : List JobRec) : CancelOutcome :=
  match job with
  | [j] =>
    if j.Status < 2 then .remoteCancel
    else
      match jobstatus j.Status with
      | some lbl =>
        .warnNotCancel ("WARNING: this job has status " ++ lbl ++ ". Will not cancel")
      | none => .keyError
  | _ => .warnNoJob ("WARNING: no job exists with jobid: " ++ toString jobid)

/-- Build `GetJobsArgs` from one string value per field name. -/
def argsOfStrings (m : String → String) : GetJobsArgs :=
  { jobid := .str (m "jobid"), timesubmit := .str (m "timesubmit"),
    timestart := .str (m "timestart"), timeend := .str (m "timeend"),
    status := .str (m "status"), queue := .str (m "queue"),
    taskname := .str (m "taskname"), error := .str (m "error"),
    query := .str (m "query"), context := .str (m "context"),
    type := .str (m "type"), wsid := .str (m "wsid") }

section Helpers

@[simp] theorem truthy_str (s : String) : (PyVal.str s).truthy = (s != "") := rfl

@[simp] theorem truthy_int (n : Int) : (PyVal.int n).truthy = (n != 0) := rfl

@[simp] theorem truthy_bool (b : Bool) : (PyVal.bool b).truthy = b := rfl

@[simp] theorem pyStr_str (s : String) : (PyVal.str s).pyStr = s := rfl

@[simp] theorem pyStr_int (n : Int) : (PyVal.int n).pyStr = toString n := rfl

@[simp] theorem karg_jobid (a : GetJobsArgs) : a.karg "jobid" = a.jobid := rfl

@[simp] theorem karg_timesubmit (a : GetJobsArgs) : a.karg "timesubmit" = a.timesubmit := rfl

@[simp] theorem karg_timestart (a : GetJobsArgs) : a.karg "timestart" = a.timestart := rfl

@[simp] theorem karg_timeend (a : GetJobsArgs) : a.karg "timeend" = a.timeend := rfl

@[simp] theorem karg_status (a : GetJobsArgs) : a.karg "status" = a.status := rfl

@[simp] theorem karg_queue (a : GetJobsArgs) : a.karg "queue" = a.queue := rfl

@[simp] theorem karg_taskname (a : GetJobsArgs) : a.karg "taskname" = a.taskname := rfl

@[simp] theorem karg_error (a : GetJobsArgs) : a.karg "error" = a.error := rfl

@[simp] theorem karg_query (a : GetJobsArgs) : a.karg "query" = a.query := rfl

@[simp] theorem karg_context (a : GetJobsArgs) : a.karg "context" = a.context := rfl

@[simp] theorem karg_type (a : GetJobsArgs) : a.karg "type" = a.type := rfl

@[simp] theorem karg_wsid (a : GetJobsArgs) : a.karg "wsid" = a.wsid := rfl

/-- `filterMap` of a guarded map is `map` after `filter`. -/
theorem filterMap_guard {α β : Type} (p : α → Bool) (f : α → β) (l : List α) :
    l.filterMap (fun a => if p a then some (f a) else none) =
      (l.filter p).map f := by
  induction l with
  | nil => rfl
  | cons a t ih =>
    by_cases h : p a <;>
      simp [List.filterMap_cons, List.filter_cons, h, ih]

/-- The emitted search terms are exactly the truthy fields, in `kargsOrder`,
each rendered as `name:value`. -/
theorem get_jobs_search_eq (a : GetJobsArgs) :
    get_jobs_search a =
      (kargsOrder.filter fun f => (a.karg f).truthy).map
        fun f => f ++ ":" ++ (a.karg f).pyStr :=
  filterMap_guard _ _ _

theorem intercalate_singleton (x : String) :
    String.intercalate ";" [x] = x := rfl

end Helpers

/-- C9: with every filter field left at its empty default, the condition
string compiled by `get_jobs` is the empty string (no filter). -/
theorem get_jobs_payload_empty : get_jobs_payload {} = "" := rfl


/-- Helper: when only `jobid` is supplied and it is truthy, the compiled
payload is the single equality term on `jobid`. -/
theorem payload_jobid_only (p : PyVal) (h : p.truthy = true) :
    get_jobs_payload { jobid := p } = "jobid:" ++ p.pyStr := by
  rw [get_jobs_payload, get_jobs_search_eq]
  simp [kargsOrder, List.filter_cons, h, intercalate_singleton]

/-- C1: the code does not treat a lone bare `CJJob` record as a 1-element
list.  On a raw list-jobs response whose job collection is a single bare
record, `get_jobs` returns that record verbatim; on the same record wrapped
in a one-element sequence it returns the one-element sequence; the two
results differ, although the `get_jobs` docstring promises a list of job
dicts in all cases. -/
theorem c1_bare_record_not_wrapped :
    getJobsNormalize (Raw.record [("GetJobsResult", Raw.record
        [("CJJob", Raw.record [("JobId", Raw.int 1), ("Status", Raw.int 5)])])])
      = some (Raw.record [("JobId", Raw.int 1), ("Status", Raw.int 5)])
    ∧ getJobsNormalize (Raw.record [("GetJobsResult", Raw.record
        [("CJJob", Raw.seq [Raw.record [("JobId", Raw.int 1), ("Status", Raw.int 5)]])])])
      = some (Raw.seq [Raw.record [("JobId", Raw.int 1), ("Status", Raw.int 5)]])
    ∧ Raw.record [("JobId", Raw.int 1), ("Status", Raw.int 5)]
        ≠ Raw.seq [Raw.record [("JobId", Raw.int 1), ("Status", Raw.int 5)]] :=
  ⟨rfl, rfl, fun h => nomatch h⟩

/-- C2 (counterexample): `get_jobs` does not fail fast on a criterion value
containing a reserved delimiter.  With `jobid = "12;34"` (which contains the
reserved `;`), the filter compiles without any error and the remote
list-jobs call is issued with the delimiter embedded verbatim. -/
theorem c2_no_fail_fast :
    hasReservedDelim "12;34" = true
    ∧ get_jobs_request { jobid := PyVal.str "12;34" } false
        = { conditions := "jobid:12;34", includeSystem := false } :=
  ⟨by decide, by decide⟩

/-- C2 (amended): `get_jobs` performs no reserved-delimiter validation: any
non-empty criterion value, reserved characters included, is embedded
verbatim in the compiled condition string, and the remote list-jobs call is
always issued with that string. -/
theorem c2_amended (v : String) (inc : Bool) (h : v ≠ "") :
    get_jobs_request { jobid := PyVal.str v } inc
      = { conditions := "jobid:" ++ v, includeSystem := inc } := by
  have : get_jobs_payload { jobid := PyVal.str v } = "jobid:" ++ v :=
    payload_jobid_only (PyVal.str v) (by simp [PyVal.truthy, h])
  simp [get_jobs_request, this]

/-- C2 (amended) witness at a value containing all four reserved
delimiters. -/
theorem c2_amended_witness :
    get_jobs_request { jobid := PyVal.str "1:2;3,4|5" } true
      = { conditions := "jobid:" ++ "1:2;3,4|5", includeSystem := true } :=
  c2_amended "1:2;3,4|5" true (by decide)

/-- C3: for a one-job lookup result with status in the 0-5 enumeration,
`cancel_job` issues the remote cancel iff the status is Ready=0 or
Started=1; for Canceling=2, Cancelled=3, Failed=4 or Finished=5 it warns
locally with the status label and performs no remote cancel call. -/
theorem c3_cancel_guard (jobid s : Int) (h0 : 0 ≤ s) (h5 : s ≤ 5) :
    (cancel_job jobid [⟨s⟩] = CancelOutcome.remoteCancel ↔ (s = 0 ∨ s = 1))
    ∧ (2 ≤ s →
        ∃ lbl, jobstatus s = some lbl
          ∧ cancel_job jobid [⟨s⟩]
            = CancelOutcome.warnNotCancel
                ("WARNING: this job has status " ++ lbl ++ ". Will not cancel")) := by
  interval_cases s <;> refine ⟨?_, ?_⟩ <;> simp [cancel_job, jobstatus]

/-- C3 witness: a started job (status 1) is cancelled remotely. -/
theorem c3_cancel_guard_witness :
    (cancel_job 9 [⟨1⟩] = CancelOutcome.remoteCancel
        ↔ ((1:Int) = 0 ∨ (1:Int) = 1))
    ∧ (2 ≤ (1:Int) →
        ∃ lbl, jobstatus 1 = some lbl
          ∧ cancel_job 9 [⟨1⟩]
            = CancelOutcome.warnNotCancel
                ("WARNING: this job has status " ++ lbl ++ ". Will not cancel")) :=
  c3_cancel_guard 9 1 (by decide) (by decide)

/-- C4 (counterexample): at job id 0 the pre-lookup is not an equality
filter on the id: Python truthiness drops the falsy `jobid` criterion
(line 217), so the `get_jobs` lookup that `get_job_status` performs
compiles the empty condition string — a filter matching every job — rather
than `"jobid:0"`. -/
theorem c4_zero_jobid_no_filter :
    (get_jobs_request (jobidLookupArgs 0) false).conditions = ""
    ∧ "" ≠ "jobid:" ++ toString (0 : Int) :=
  ⟨by decide, by decide⟩

/-- C4 (amended): `get_job_status` first looks up the job id through
`get_jobs` with only the `jobid` criterion supplied; for every nonzero job
id that lookup's condition string is the equality filter `jobid:<id>` (for
id 0 truthiness drops the criterion, see the counterexample).  For every
job id, the remote status call is made iff the lookup returns exactly one
job; with zero or several matches the descriptive `"No jobs found..."`
string is returned and no remote status call happens. -/
theorem c4_status_guard (jobid : Int) (code : Bool) (lookup : List JobRec)
    (k : Int) :
    (jobid ≠ 0 →
      (get_jobs_request (jobidLookupArgs jobid) false).conditions
        = "jobid:" ++ toString jobid)
    ∧ ((get_job_status jobid code lookup k).remoteCalled = true
        ↔ lookup.length = 1)
    ∧ (lookup.length ≠ 1 →
        get_job_status jobid code lookup k
          = ⟨false, StatusResult.notFound
              ("No jobs found for jobid " ++ toString jobid)⟩) := by
  refine ⟨?_, ?_, ?_⟩
  · intro h
    show get_jobs_payload (jobidLookupArgs jobid) = _
    rw [jobidLookupArgs, payload_jobid_only (PyVal.int jobid) (by simp [h])]
    rfl
  · by_cases hl : lookup.length = 1
    · cases code
      · cases hjs : jobstatus k <;> simp [get_job_status, hjs, hl]
      · simp [get_job_status, hl]
    · simp [get_job_status, hl]
  · intro hl
    simp [get_job_status, hl]

/-- C4 witness at job id 7 with an empty lookup result, discharging the
nonzero-id and not-one-match hypotheses. -/
theorem c4_status_guard_witness :
    ((get_jobs_request (jobidLookupArgs 7) false).conditions
        = "jobid:" ++ toString (7:Int))
    ∧ ((get_job_status 7 false [] 0).remoteCalled = true
        ↔ ([] : List JobRec).length = 1)
    ∧ (get_job_status 7 false [] 0
        = ⟨false, StatusResult.notFound
            ("No jobs found for jobid " ++ toString (7:Int))⟩) :=
  ⟨(c4_status_guard 7 false [] 0).1 (by decide),
   (c4_status_guard 7 false [] 0).2.1,
   (c4_status_guard 7 false [] 0).2.2 (by decide)⟩

/-- C5 (counterexample): in the integer-code form (`code=True`) an
out-of-range remote status is not surfaced as an error: with a one-job
lookup and remote status 9 — unmapped, `jobstatus 9 = none` —
`get_job_status` silently returns the raw value 9. -/
theorem c5_code_passthrough :
    get_job_status 3 true [⟨5⟩] 9 = ⟨true, StatusResult.codeVal 9⟩
    ∧ jobstatus 9 = none :=
  ⟨rfl, rfl⟩

/-- C5 (amended): the label form maps 0..5 to the six fixed labels and
raises a lookup error (`KeyError`) for any other integer; the integer-code
form returns the remote integer verbatim with no validation, out-of-range
values included. -/
theorem c5_amended (jobid k : Int) (lookup : List JobRec)
    (h : lookup.length = 1) :
    (jobstatus 0 = some "ready" ∧ jobstatus 1 = some "started"
      ∧ jobstatus 2 = some "canceling" ∧ jobstatus 3 = some "cancelled"
      ∧ jobstatus 4 = some "failed" ∧ jobstatus 5 = some "finished")
    ∧ (∀ lbl, jobstatus k = some lbl →
        (get_job_status jobid false lookup k).result = StatusResult.label lbl)
    ∧ (jobstatus k = none →
        (get_job_status jobid false lookup k).result = StatusResult.keyError)
    ∧ (get_job_status jobid true lookup k).result = StatusResult.codeVal k
    ∧ ((k < 0 ∨ 5 < k) → jobstatus k = none) := by
  refine ⟨⟨rfl, rfl, rfl, rfl, rfl, rfl⟩, ?_, ?_, ?_, ?_⟩
  · intro lbl hk
    simp [get_job_status, h, hk]
  · intro hk
    simp [get_job_status, h, hk]
  · simp [get_job_status, h]
  · intro hk
    rcases hk with hk | hk <;> (unfold jobstatus; split_ifs <;> first | rfl | omega)

/-- C5 (amended) witness at out-of-range status 7 with a one-job lookup. -/
theorem c5_amended_witness :
    (jobstatus 0 = some "ready" ∧ jobstatus 1 = some "started"
      ∧ jobstatus 2 = some "canceling" ∧ jobstatus 3 = some "cancelled"
      ∧ jobstatus 4 = some "failed" ∧ jobstatus 5 = some "finished")
    ∧ (∀ lbl, jobstatus 7 = some lbl →
        (get_job_status 3 false [⟨5⟩] 7).result = StatusResult.label lbl)
    ∧ (jobstatus 7 = none →
        (get_job_status 3 false [⟨5⟩] 7).result = StatusResult.keyError)
    ∧ (get_job_status 3 true [⟨5⟩] 7).result = StatusResult.codeVal 7
    ∧ (((7:Int) < 0 ∨ 5 < (7:Int)) → jobstatus 7 = none) :=
  c5_amended 3 7 [⟨5⟩] rfl

/-- C7: filter compilation is deterministic — two criteria sets assigning
equal values to every search field compile to the identical condition
string, the emission order `kargsOrder` being fixed. -/
theorem c7_deterministic (a b : GetJobsArgs)
    (h : ∀ f ∈ kargsOrder, a.karg f = b.karg f) :
    get_jobs_payload a = get_jobs_payload b := by
  rw [get_jobs_payload, get_jobs_payload, get_jobs_search_eq,
    get_jobs_search_eq]
  have h1 : (kargsOrder.filter fun f => (a.karg f).truthy)
      = kargsOrder.filter fun f => (b.karg f).truthy :=
    List.filter_congr fun f hf => by rw [h f hf]
  rw [h1]
  exact congrArg _ (List.map_congr_left fun f hf => by
    rw [h f (List.mem_of_mem_filter hf)])

/-- C7 witness: the same criteria values built two ways compile to the
same string. -/
theorem c7_deterministic_witness :
    get_jobs_payload (argsOfStrings fun _ => "x")
      = get_jobs_payload
          { jobid := PyVal.str "x", timesubmit := PyVal.str "x",
            timestart := PyVal.str "x", timeend := PyVal.str "x",
            status := PyVal.str "x", queue := PyVal.str "x",
            taskname := PyVal.str "x", error := PyVal.str "x",
            query := PyVal.str "x", context := PyVal.str "x",
            type := PyVal.str "x", wsid := PyVal.str "x" } :=
  c7_deterministic _ _
    (by intro f hf; simp only [kargsOrder] at hf; fin_cases hf <;> rfl)

/-- C8: absent collection keys normalize to empty lists, not errors: a
list-jobs response whose `GetJobsResult` record lacks `CJJob` yields the
empty job list, and a queues response whose `GetQueuesResult` record lacks
`CJQueue` yields the empty queue list. -/
theorem c8_absent_collections (jf qf : List (String × Raw))
    (hj : assocFind jf "CJJob" = none) (hq : assocFind qf "CJQueue" = none) :
    getJobsNormalize (Raw.record [("GetJobsResult", Raw.record jf)])
      = some (Raw.seq [])
    ∧ getQueuesNormalize (Raw.record [("GetQueuesResult", Raw.record qf)])
      = some [] := by
  constructor
  · have e : getJobsNormalize (Raw.record [("GetJobsResult", Raw.record jf)])
        = (match assocFind jf "CJJob" with
           | some v => some v
           | none => some (Raw.seq [])) := rfl
    rw [e, hj]
  · have e : getQueuesNormalize (Raw.record [("GetQueuesResult", Raw.record qf)])
        = (match assocFind qf "CJQueue" with
           | some (Raw.seq l) => l.mapM queueOfRaw
           | some _ => none
           | none => some ([] : List QueueEntry)) := rfl
    rw [e, hq]

/-- C8 witness: a jobs response with only a `Message` field and a queues
response with an empty result record. -/
theorem c8_absent_collections_witness :
    getJobsNormalize (Raw.record [("GetJobsResult",
        Raw.record [("Message", Raw.str "ok")])])
      = some (Raw.seq [])
    ∧ getQueuesNormalize (Raw.record [("GetQueuesResult", Raw.record [])])
      = some [] :=
  c8_absent_collections [("Message", Raw.str "ok")] [] rfl rfl

/-- C10: a criterion is emitted into the condition string iff its value is
Python-truthy: the search terms are exactly the truthy fields in order;
falsy values — the empty string, integer 0 or False — yield no term (an
empty filter when supplied alone), while a truthy non-string such as
integer 123 is emitted through `str()`. -/
theorem c10_truthiness :
    (∀ a : GetJobsArgs,
      get_jobs_search a
        = (kargsOrder.filter fun f => (a.karg f).truthy).map
            fun f => f ++ ":" ++ (a.karg f).pyStr)
    ∧ get_jobs_payload { jobid := PyVal.int 0 } = ""
    ∧ get_jobs_payload { status := PyVal.int 0 } = ""
    ∧ get_jobs_payload { jobid := PyVal.bool false } = ""
    ∧ get_jobs_payload { jobid := PyVal.int 123 } = "jobid:123" :=
  ⟨get_jobs_search_eq, by decide, by decide, by decide, by decide⟩

end CasJobs
